import Mathlib

/-!
# Verification of the Universal API Generator engine

A shallow embedding of the probing-and-inference engine in
`universal_api_backend/universal_api_generator.py` and the OpenAPI emitter in
`universal_api_backend/swagger_generator.py`, together with theorems settling
the specification claims about parameter profiling, endpoint discovery,
schema inference, CRUD classification, summary statistics, and emission.

Network interaction is modelled by passing each probe's observed outcome
explicitly: `Option Nat` is the status code of one HTTP request, with `none`
standing for a request that raised (timeout / connection error), which the
Python code catches per probe.  Python strings are Lean `String`s; the
character-level helpers below re-implement the exact `str` operations the
source uses (`.lower()`, `.strip()`, `.isdigit()`, `.startswith`, substring
containment, `str.split('/')`) so that all definitions evaluate by kernel
reduction.  ASCII data is assumed throughout (the source only ever compares
against ASCII literals).
-/

/-- ASCII lowercasing of one character, the effect of Python `str.lower()`
on ASCII input. -/
def lower_char (c : Char) : Char :=
  if 'A' ≤ c ∧ c ≤ 'Z' then Char.ofNat (c.toNat + 32) else c

/-- Python `s.lower()` on ASCII strings. -/
def lower_str (s : String) : String := ⟨s.data.map lower_char⟩

/-- Characters Python `str.strip()` removes: space, tab, newline, carriage
return, vertical tab, form feed. -/
def py_space (c : Char) : Bool :=
  c = ' ' || c = '\t' || c = '\n' || c = '\r' || c = Char.ofNat 11 || c = Char.ofNat 12

/-- Python `s.strip()`. -/
def strip_str (s : String) : String :=
  ⟨((s.data.dropWhile py_space).reverse.dropWhile py_space).reverse⟩

/-- ASCII decimal digit test. -/
def digit_char (c : Char) : Bool := '0' ≤ c && c ≤ '9'

/-- Python `s.isdigit()` on ASCII strings: non-empty and all characters are
decimal digits. -/
def isdigit_str (s : String) : Bool := !s.data.isEmpty && s.data.all digit_char

/-- Whether `pre` is a prefix of `l`. -/
def prefix_of : List Char → List Char → Bool
  | [], _ => true
  | _ :: _, [] => false
  | x :: xs, y :: ys => x = y && prefix_of xs ys

/-- Whether `pat` occurs as a contiguous substring of `s` (Python `pat in s`). -/
def contains_list (pat : List Char) : List Char → Bool
  | [] => prefix_of pat []
  | x :: xs => prefix_of pat (x :: xs) || contains_list pat xs

/-- Python `pat in s` for strings. -/
def str_contains (s pat : String) : Bool := contains_list pat.data s.data

/-- Python `s.startswith(pre)`. -/
def str_startswith (s pre : String) : Bool := prefix_of pre.data s.data

/-- Full match of the regex `^\d{4}-\d{2}-\d{2}$` used by
`_infer_parameter_type` for the `date` type. -/
def date_full (s : String) : Bool :=
  match s.data with
  | [y1, y2, y3, y4, d1, m1, m2, d2, a1, a2] =>
    digit_char y1 && digit_char y2 && digit_char y3 && digit_char y4 &&
    d1 = '-' && digit_char m1 && digit_char m2 && d2 = '-' &&
    digit_char a1 && digit_char a2
  | _ => false

/-- Prefix match of the regex `^\d{4}-\d{2}-\d{2}` used by
`_infer_type_comprehensive` for the `date` sniff (note: no `$`, so any
suffix is allowed). -/
def date_prefixed (s : String) : Bool :=
  match s.data with
  | y1 :: y2 :: y3 :: y4 :: d1 :: m1 :: m2 :: d2 :: a1 :: a2 :: _ =>
    digit_char y1 && digit_char y2 && digit_char y3 && digit_char y4 &&
    d1 = '-' && digit_char m1 && digit_char m2 && d2 = '-' &&
    digit_char a1 && digit_char a2
  | _ => false

/-- Lowercase hexadecimal digit, the character class `[a-f0-9]` of the UUID
regex in `_infer_type_comprehensive`. -/
def hex_lower (c : Char) : Bool := digit_char c || ('a' ≤ c && c ≤ 'f')

/-- Consume exactly `n` lowercase-hex characters, returning the remainder. -/
def take_hex : Nat → List Char → Option (List Char)
  | 0, l => some l
  | n + 1, c :: l => if hex_lower c then take_hex n l else none
  | _ + 1, [] => none

/-- Consume a literal dash. -/
def take_dash : List Char → Option (List Char)
  | '-' :: l => some l
  | _ => none

/-- Full match of the canonical-UUID regex
`^[a-f0-9]{8}-[a-f0-9]{4}-[a-f0-9]{4}-[a-f0-9]{4}-[a-f0-9]{12}$`. -/
def uuid_full (s : String) : Bool :=
  match (take_hex 8 s.data).bind take_dash |>.bind (take_hex 4) |>.bind take_dash
      |>.bind (take_hex 4) |>.bind take_dash |>.bind (take_hex 4)
      |>.bind take_dash |>.bind (take_hex 12) with
  | some [] => true
  | _ => false

/-- Python `str.split(sep)` for a one-character separator, keeping empty
pieces (so `"".split('/') = [""]` and `"/a".split('/') = ["", "a"]`). -/
def split_on_char (c : Char) : List Char → List (List Char)
  | [] => [[]]
  | x :: xs =>
    let r := split_on_char c xs
    if x = c then [] :: r
    else
      match r with
      | [] => [[x]]
      | h :: t => (x :: h) :: t

/-! ## Parameter profiler (`_analyze_parameter_comprehensive`) -/

/-- One entry of the parameter-variation catalog: default value, alternative
test values, and the designated invalid value. -/
structure ParamSpec where
  default : String
  test_values : List String
  error_value : String
  deriving DecidableEq, Repr

/-- The `validation_info` dictionary accumulated by
`_analyze_parameter_comprehensive`. -/
structure ValidationInfo where
  accepted_values : List String := []
  rejected_values : List String := []
  validation_patterns : List String := []
  required : Bool := false
  type : String := "string"
  deriving DecidableEq, Repr

/-- The `parameter_info` dictionary returned by
`_analyze_parameter_comprehensive`. -/
structure ParamInfo where
  type : String
  required : Bool
  default : String
  accepted : Bool
  deriving DecidableEq, Repr

/-- Bucketing of one default-value or test-value probe: status in
{200, 401, 403} appends the value to `accepted_values`, status 400 appends
it to `rejected_values`, any other status (or a raised request, `none`)
leaves both buckets unchanged. -/
def bucket_probe (v : String) (o : Option Nat) (vi : ValidationInfo) : ValidationInfo :=
  match o with
  | none => vi
  | some s =>
    if s = 200 || s = 401 || s = 403 then
      { vi with accepted_values := vi.accepted_values ++ [v] }
    else if s = 400 then
      { vi with rejected_values := vi.rejected_values ++ [v] }
    else vi

/-- Bucketing of the invalid-value probe: the source only tests
`status_code == 400`, appending to `rejected_values` and recording an
extracted validation-error message (modelled by `pat`, the result of
`_extract_validation_error`, which depends on the response body) when one is
found.  Statuses 200/401/403 on this probe are not handled at all. -/
def bucket_error (v : String) (o : Option Nat) (pat : Option String)
    (vi : ValidationInfo) : ValidationInfo :=
  match o with
  | none => vi
  | some s =>
    if s = 400 then
      { vi with rejected_values := vi.rejected_values ++ [v],
                validation_patterns := vi.validation_patterns ++ pat.toList }
    else vi

/-- The requiredness decision at the end of
`_analyze_parameter_comprehensive`: starting from `False`, set `False` when
accepted non-empty and rejected empty, `True` when rejected non-empty and
accepted empty, and leave `False` otherwise. -/
def required_flag (acc rej : List String) : Bool :=
  if acc ≠ [] ∧ rej = [] then false
  else if rej ≠ [] ∧ acc = [] then true
  else false

/-- `_infer_parameter_type`: priority chain over the accepted values. -/
def infer_parameter_type (accepted_values : List String) : String :=
  if accepted_values.isEmpty then "string"
  else if accepted_values.all isdigit_str then "integer"
  else if accepted_values.all
      (fun v => lower_str v = "true" || lower_str v = "false") then "boolean"
  else if accepted_values.all date_full then "date"
  else "string"

/-- The full probe protocol of `_analyze_parameter_comprehensive` for one
parameter: probe the default value (outcome `od`), then each test value (the
i-th outcome in `ots` belongs to the i-th test value), then the invalid
value (outcome `oe`, with `pat` the validation-error message extracted from
its body, if any), then derive `required` and `type`. -/
def analyze_parameter_validation (ps : ParamSpec) (od : Option Nat)
    (ots : List (Option Nat)) (oe : Option Nat) (pat : Option String) :
    ValidationInfo :=
  let vi := bucket_probe ps.default od {}
  let vi := (ps.test_values.zip ots).foldl (fun vi p => bucket_probe p.1 p.2 vi) vi
  let vi := bucket_error ps.error_value oe pat vi
  let vi := { vi with required := required_flag vi.accepted_values vi.rejected_values }
  { vi with type := infer_parameter_type vi.accepted_values }

/-- `_analyze_parameter_comprehensive`: the returned pair of
`parameter_info` and `validation_info`. -/
def analyze_parameter_comprehensive (ps : ParamSpec) (od : Option Nat)
    (ots : List (Option Nat)) (oe : Option Nat) (pat : Option String) :
    ParamInfo × ValidationInfo :=
  let vi := analyze_parameter_validation ps od ots oe pat
  (⟨vi.type, vi.required, ps.default, !vi.accepted_values.isEmpty⟩, vi)

/-- Reference bucketing (used to state the corrected C1): the values of a
probe sequence whose status lies in {200, 401, 403}, in probe order. -/
def accepted_of (probes : List (String × Option Nat)) : List String :=
  probes.filterMap fun p =>
    p.2.bind fun s =>
      if s = 200 || s = 401 || s = 403 then some p.1 else none

/-- Reference bucketing: the values of a probe sequence whose status is
exactly 400, in probe order. -/
def rejected_of (probes : List (String × Option Nat)) : List String :=
  probes.filterMap fun p =>
    p.2.bind fun s => if s = 400 then some p.1 else none

/-! ## Endpoint discovery (`discover_endpoints`) -/

/-- `_is_valid_endpoint`: the accept-set of status codes that mark an
endpoint as existing. -/
def is_valid_endpoint (status : Nat) : Bool :=
  status = 200 || status = 201 || status = 202 || status = 204 ||
  status = 401 || status = 403 || status = 405 || status = 422 || status = 429

/-- Normalization applied to each caller-supplied endpoint in explicit-list
mode: `strip()`, then prepend `/` unless already present. -/
def normalize_endpoint (e : String) : String :=
  let t := strip_str e
  if str_startswith t "/" then t else "/" ++ t

/-- Explicit-list discovery: each caller-supplied endpoint paired with its
probe outcome (`none` = request raised); the normalized endpoint is appended
exactly when the probe's status is in the accept-set.  No deduplication is
performed in this mode. -/
def discover_endpoints_custom (probes : List (String × Option Nat)) : List String :=
  probes.filterMap fun p =>
    p.2.bind fun s =>
      if is_valid_endpoint s then some (normalize_endpoint p.1) else none

/-- Pattern-catalog hits: the patterns whose probe status is in the
accept-set, in catalog order (no normalization is applied to patterns). -/
def catalog_hits (probes : List (String × Option Nat)) : List String :=
  probes.filterMap fun p =>
    p.2.bind fun s => if is_valid_endpoint s then some p.1 else none

/-- Catalog-mode discovery: pattern hits, extended by the endpoints
extracted from an OpenAPI document (`_discover_with_openapi`) and from
documentation pages (`_discover_from_documentation`) — both parameterized
here since they are functions of remote content — then `list(set(...))`.
Python's set has unspecified iteration order; `List.dedup` is one
order-realization, and the claims proved about this mode (duplicate
freedom, membership) are order-independent. -/
def discover_endpoints_catalog (pattern_probes : List (String × Option Nat))
    (openapi_endpoints doc_endpoints : List String) : List String :=
  ((catalog_hits pattern_probes) ++ openapi_endpoints ++ doc_endpoints).dedup

/-- The fixed `self.endpoint_patterns` catalog from `__init__`, verbatim
(duplicates included, as in the Python list literal). -/
def endpoint_patterns : List String :=
  [ "/users", "/posts", "/products", "/orders", "/items", "/customers",
    "/employees", "/articles", "/comments", "/reviews", "/ratings",
    "/categories", "/tags", "/files", "/images", "/documents",
    "/projects", "/tasks", "/events", "/schedules", "/bookings",
    "/payments", "/invoices", "/transactions", "/accounts", "/profiles",
    "/api/users", "/api/v1/users", "/api/v2/users", "/v1/users", "/v2/users",
    "/api/posts", "/api/v1/posts", "/api/v2/posts", "/v1/posts",
    "/api/products", "/api/v1/products", "/api/v2/products",
    "/data/users", "/data/posts", "/resources/users", "/resources/posts",
    "/services/users", "/services/posts", "/entities/users", "/entities/posts",
    "/entities", "/objects", "/records", "/items", "/data", "/resources",
    "/auth", "/login", "/logout", "/register", "/signup", "/signin",
    "/password", "/reset", "/verify", "/confirm", "/activate",
    "/files", "/uploads", "/downloads", "/media", "/images", "/videos",
    "/documents", "/attachments", "/assets", "/static",
    "/search", "/find", "/query", "/discover", "/explore", "/browse",
    "/analytics", "/metrics", "/stats", "/reports", "/dashboard",
    "/insights", "/data", "/statistics" ]

/-- The discovery-rate computation of `_generate_comprehensive_summary`:
`"0.0%"` (modelled as `none`) only when the pattern catalog is empty,
otherwise `(len(endpoints) / len(self.endpoint_patterns)) * 100`.  The
function receives only the discovered endpoint list: the source computes the
rate against `self.endpoint_patterns` in both discovery modes, since that
attribute always holds the fixed catalog.  Python evaluates the division in
binary floating point and formats one decimal; the exact rational value is
used here, which the claims' comparisons are insensitive to. -/
def summary_discovery_rate (endpoints : List String) : Option ℚ :=
  if 0 < endpoint_patterns.length then
    some (((endpoints.length : ℚ) / (endpoint_patterns.length : ℚ)) * 100)
  else none

/-! ## JSON values

Parsed JSON bodies, mirroring what Python's `json` module produces: `None`,
`bool`, `int`, `str`, `list`, `dict` (insertion-ordered association list).
Floats are not modelled: no claim concerns a float-valued body, and floating
point is outside the embedding.  The mutual shape (rather than nesting
`List`) keeps every recursion structural and every equality decidable. -/

mutual
inductive JsonValue where
  | jnull
  | jbool (b : Bool)
  | jint (n : Int)
  | jstr (s : String)
  | jarr (elems : JsonList)
  | jobj (fields : JsonFields)
  deriving DecidableEq
inductive JsonList where
  | nil
  | cons (hd : JsonValue) (tl : JsonList)
  deriving DecidableEq
inductive JsonFields where
  | nil
  | cons (key : String) (val : JsonValue) (tl : JsonFields)
  deriving DecidableEq
end

/-- Number of elements of a JSON array (Python `len(data)`). -/
def JsonList.length : JsonList → Nat
  | .nil => 0
  | .cons _ t => t.length + 1

/-- Python `dict.get(key)`: first binding of `key` (a Python dict has no
duplicate keys, so first = only). -/
def lookup_field : JsonFields → String → Option JsonValue
  | .nil, _ => none
  | .cons k v t, key => if k = key then some v else lookup_field t key

/-- `dict.get(key)` lifted to a JSON value; `none` on non-dicts (where the
Python attribute access would raise). -/
def get_key (j : JsonValue) (k : String) : Option JsonValue :=
  match j with
  | .jobj f => lookup_field f k
  | _ => none

/-- Python `type(data).__name__` for parsed-JSON values. -/
def python_type_name : JsonValue → String
  | .jnull => "NoneType"
  | .jbool _ => "bool"
  | .jint _ => "int"
  | .jstr _ => "str"
  | .jarr _ => "list"
  | .jobj _ => "dict"

/-- Python truthiness (`not response_schema` in `_create_response_schema`). -/
def py_falsy : JsonValue → Bool
  | .jnull => true
  | .jbool b => !b
  | .jint n => n = 0
  | .jstr s => s = ""
  | .jarr .nil => true
  | .jarr (.cons _ _) => false
  | .jobj .nil => true
  | .jobj (.cons _ _ _) => false

/-- `_safe_json`: the parsed JSON body when parsing succeeded, otherwise the
raw response text as a Python `str` (never an exception). -/
def safe_json (parsed : Option JsonValue) (raw_text : String) : JsonValue :=
  parsed.getD (.jstr raw_text)

/-! ## Schema inference (`_analyze_response_schema_comprehensive`) -/

/-- `_infer_type_comprehensive`: the per-value type tag, including the
string-subtype sniffing chain (date prefix, canonical UUID, `@`-and-`.`,
`http` prefix). -/
def infer_type_comprehensive : JsonValue → String
  | .jbool _ => "boolean"
  | .jint _ => "integer"
  | .jstr s =>
    if date_prefixed s then "date"
    else if uuid_full s then "uuid"
    else if s.data.contains '@' && s.data.contains '.' then "email"
    else if str_startswith s "http" then "url"
    else "string"
  | .jarr _ => "array"
  | .jobj _ => "object"
  | .jnull => "string"

/-- The `properties` map built by `_infer_object_schema_comprehensive`: each
field maps to the flat two-key dict `{'type': tag, 'example': value}` — the
field's value is never recursed into. -/
def infer_properties : JsonFields → JsonFields
  | .nil => .nil
  | .cons k v t =>
    .cons k (.jobj (.cons "type" (.jstr (infer_type_comprehensive v))
        (.cons "example" v .nil))) (infer_properties t)

/-- `_infer_object_schema_comprehensive`: the schema dict produced for a
JSON object. -/
def infer_object_schema_comprehensive (f : JsonFields) : JsonValue :=
  .jobj (.cons "type" (.jstr "object")
    (.cons "properties" (.jobj (infer_properties f))
      (.cons "required" (.jarr .nil)
        (.cons "example" (.jobj f) .nil))))

/-- `_analyze_response_schema_comprehensive` applied to the value
`_safe_json` produced for a 200 GET body.  A dict yields the object schema;
a non-empty list yields an array schema over the first element, which raises
(`AttributeError`, caught by the enclosing `except` → `{'type':'unknown'}`)
unless that element is a dict; an empty list and every scalar (including the
raw text of an unparseable body, a `str`) fall to
`{'type': type(data).__name__}`. -/
def analyze_response_schema_comprehensive (data : JsonValue) : JsonValue :=
  match data with
  | .jobj f => infer_object_schema_comprehensive f
  | .jarr (.cons (.jobj f) xs) =>
    .jobj (.cons "type" (.jstr "array")
      (.cons "items" (infer_object_schema_comprehensive f)
        (.cons "count" (.jint ((xs.length : Nat) + 1)) .nil)))
  | .jarr (.cons _ _) => .jobj (.cons "type" (.jstr "unknown") .nil)
  | v => .jobj (.cons "type" (.jstr (python_type_name v)) .nil)

mutual
/-- The claim's reading of §4.4 (used only to compare against the source's
inference): a fully recursive mapping — object → `{type:object, properties:
field→inferred}` at every depth, non-empty array → `{type:array, items:
inferred(first)}`, empty array → array with unconstrained items, scalar →
its primitive kind. -/
def claim_schema_map : JsonValue → JsonValue
  | .jobj f =>
    .jobj (.cons "type" (.jstr "object")
      (.cons "properties" (.jobj (claim_schema_props f)) .nil))
  | .jarr (.cons x _) =>
    .jobj (.cons "type" (.jstr "array") (.cons "items" (claim_schema_map x) .nil))
  | .jarr .nil =>
    .jobj (.cons "type" (.jstr "array") (.cons "items" (.jobj .nil) .nil))
  | .jbool _ => .jobj (.cons "type" (.jstr "boolean") .nil)
  | .jint _ => .jobj (.cons "type" (.jstr "integer") .nil)
  | .jstr _ => .jobj (.cons "type" (.jstr "string") .nil)
  | .jnull => .jobj (.cons "type" (.jstr "null") .nil)
/-- Field-wise companion of `claim_schema_map`. -/
def claim_schema_props : JsonFields → JsonFields
  | .nil => .nil
  | .cons k v t => .cons k (claim_schema_map v) (claim_schema_props t)
end

/-! ## CRUD classification (`_identify_crud_operations`) -/

/-- The four CRUD capability flags. -/
structure CrudOps where
  create : Bool
  read : Bool
  update : Bool
  delete : Bool
  deriving DecidableEq, Repr

/-- The effect of `re.search(r'/([^/]+)(?:/([^/]+))?$', endpoint)`: the
leftmost match anchored at the end of the string.  In terms of
`endpoint.split('/')`: writing the split as `[..., a, b]`, the search fails
when the string has no `/` or its last piece is empty (trailing slash);
otherwise, when `b` is additionally preceded by a non-empty piece `a` that
is itself preceded by a `/` (i.e. `a` is not the whole head of the string),
the match is `/a/b` — group 1 = `a`, group 2 (`has_id`) present; in every
other case the match is `/b` alone — group 1 = `b`, no group 2. -/
def regex_last_segments (endpoint : String) : Option (String × Bool) :=
  match (split_on_char '/' endpoint.data).reverse with
  | [] => none
  | b :: rest =>
    if b.isEmpty then none
    else
      match rest with
      | [] => none
      | a :: rest2 =>
        if !a.isEmpty && !rest2.isEmpty then some (⟨a⟩, true)
        else some (⟨b⟩, false)

/-- `auth`/`login` substring test on the lowercased path. -/
def has_auth_login (endpoint : String) : Bool :=
  str_contains (lower_str endpoint) "auth" || str_contains (lower_str endpoint) "login"

/-- `search`/`find` substring test on the lowercased path. -/
def has_search_find (endpoint : String) : Bool :=
  str_contains (lower_str endpoint) "search" || str_contains (lower_str endpoint) "find"

/-- `_identify_crud_operations`: all-False when the trailing-segment regex
finds no match (this early return precedes the substring overrides);
otherwise the `auth`/`login` override, then the `search`/`find` override,
then the structural rule driven by `has_id`. -/
def identify_crud_operations (endpoint : String) : CrudOps :=
  match regex_last_segments endpoint with
  | none => ⟨false, false, false, false⟩
  | some (_, has_id) =>
    if has_auth_login endpoint then ⟨true, false, false, false⟩
    else if has_search_find endpoint then ⟨false, true, false, false⟩
    else ⟨!has_id, true, has_id, has_id⟩

/-! ## OpenAPI emitter (`swagger_generator.py`) -/

/-- `_convert_parameter_type` on a string tag: identity on
`string`/`integer`/`number`/`boolean`, `string` for
`date`/`email`/`url`/`uuid`, default `string`. -/
def convert_parameter_type (t : String) : String :=
  if t = "string" || t = "integer" || t = "number" || t = "boolean" then t
  else "string"

/-- `_convert_parameter_type` on an arbitrary JSON value found under a
property's `type` key: Python's `type_mapping.get(param_type, 'string')`
returns the default for any hashable non-matching key (None, bool, int) and
raises `TypeError` (modelled `none`) on unhashable keys (list, dict). -/
def convert_parameter_type_value : JsonValue → Option String
  | .jstr t => some (convert_parameter_type t)
  | .jarr _ => none
  | .jobj _ => none
  | _ => some "string"

/-- The `format` entry `_create_response_schema` adds for a property whose
original type tag is `date`, `email` or `url`. -/
def property_format_fields (t0 : JsonValue) : JsonFields :=
  if t0 = .jstr "date" then .cons "format" (.jstr "date") .nil
  else if t0 = .jstr "email" then .cons "format" (.jstr "email") .nil
  else if t0 = .jstr "url" then .cons "format" (.jstr "uri") .nil
  else .nil

/-- Append for JSON field lists. -/
def append_fields : JsonFields → JsonFields → JsonFields
  | .nil, g => g
  | .cons k v t, g => .cons k v (append_fields t g)

/-- Conversion of one property entry by `_create_response_schema`'s object
branch: `prop_info.get('type', 'string')` feeds `_convert_parameter_type`,
the result dict is `{'type': converted, 'description': name + " field"}`
plus the format entry.  `none` models the `TypeError` raised when the
original tag is unhashable. -/
def convert_property (k : String) (pf : JsonFields) : Option JsonValue :=
  let t0 := (lookup_field pf "type").getD (.jstr "string")
  match convert_parameter_type_value t0 with
  | none => none
  | some ct =>
    some (.jobj (append_fields
      (.cons "type" (.jstr ct) (.cons "description" (.jstr (k ++ " field")) .nil))
      (property_format_fields t0)))

/-- The property loop of `_create_response_schema`'s object branch; `none`
models a raised exception: each `prop_info` must be a dict (otherwise
`.get` raises `AttributeError`). -/
def convert_properties : JsonFields → Option JsonFields
  | .nil => some .nil
  | .cons k v t =>
    match v with
    | .jobj pf =>
      match convert_property k pf, convert_properties t with
      | some c, some rest => some (.cons k c rest)
      | _, _ => none
    | _ => none

/-- The constant `{'type': 'object', 'properties': {}}` the emitter degrades
to. -/
def empty_object_schema : JsonValue :=
  .jobj (.cons "type" (.jstr "object") (.cons "properties" (.jobj .nil) .nil))

mutual
/-- Structural size of a JSON value, the termination measure for the
emitter's recursion through the `items` key. -/
def json_size : JsonValue → Nat
  | .jarr l => json_list_size l + 1
  | .jobj f => json_fields_size f + 1
  | _ => 1
/-- Size of a JSON array's elements. -/
def json_list_size : JsonList → Nat
  | .nil => 0
  | .cons h t => json_size h + json_list_size t + 1
/-- Size of a JSON object's fields. -/
def json_fields_size : JsonFields → Nat
  | .nil => 0
  | .cons _ v t => json_size v + json_fields_size t + 1
end

/-- A field's value is strictly smaller than the whole object. -/
def lookup_field_size_lt : ∀ (f : JsonFields) (k : String) (v : JsonValue),
    lookup_field f k = some v → json_size v < json_size (JsonValue.jobj f)
  | .nil, _, _, h => by simp [lookup_field] at h
  | .cons k' v' t, k, v, h => by
    simp only [lookup_field] at h
    split at h
    · cases h
      simp [json_size, json_fields_size]
      omega
    · have := lookup_field_size_lt t k v h
      simp [json_size, json_fields_size] at this ⊢
      omega

/-- `_create_response_schema`: falsy input (in the pipeline: the empty dict)
degrades to `{'type':'object','properties':{}}`; a dict tagged `array`
recurses into its `items` value (defaulting to `{}` when absent); a dict
tagged `object` converts each property; any other tag — scalar kind,
unrecognized tag, missing tag, non-string tag — degrades to the empty
object schema.  `none` models a raised exception: a truthy non-dict input
(`.get` raises `AttributeError`), a non-dict `properties` value, a non-dict
property entry, or an unhashable property tag. -/
def create_response_schema (rs : JsonValue) : Option JsonValue :=
  if hf : py_falsy rs then some empty_object_schema
  else
    match rs with
    | .jobj f =>
      if lookup_field f "type" = some (.jstr "array") then
        match hi : lookup_field f "items" with
        | some items =>
          (create_response_schema items).map fun i =>
            .jobj (.cons "type" (.jstr "array") (.cons "items" i .nil))
        | none =>
          (create_response_schema (.jobj .nil)).map fun i =>
            .jobj (.cons "type" (.jstr "array") (.cons "items" i .nil))
      else if lookup_field f "type" = some (.jstr "object") then
        match (lookup_field f "properties").getD (.jobj .nil) with
        | .jobj props =>
          (convert_properties props).map fun ps =>
            .jobj (.cons "type" (.jstr "object") (.cons "properties" (.jobj ps) .nil))
        | _ => none
      else some empty_object_schema
    | _ => none
termination_by json_size rs
decreasing_by
  · exact lookup_field_size_lt _ _ _ hi
  · cases f with
    | nil => simp [py_falsy] at hf
    | cons k v t => simp [json_size, json_fields_size]

/-- The emitter's per-parameter inclusion test in `_create_operation`: the
profile's `accepted` flag, or a non-empty `accepted_values` bucket in the
validation info — a query parameter object is emitted only when this holds,
and its `required` field is copied from the profile. -/
def emits_parameter (pi : ParamInfo) (vi : ValidationInfo) : Bool :=
  pi.accepted || !vi.accepted_values.isEmpty

/-- Python `isinstance(value, dict)`. -/
def is_json_object : JsonValue → Bool
  | .jobj _ => true
  | _ => false

/-- The nested body `{"a": {"b": 1}}`, used to separate the source's
depth-one schema inference from the claim's fully recursive mapping. -/
def c3_input : JsonValue :=
  .jobj (.cons "a" (.jobj (.cons "b" (.jint 1) .nil)) .nil)

/-! ## Helper lemmas -/

theorem bucket_probe_accepted (v : String) (o : Option Nat) (vi : ValidationInfo) :
    (bucket_probe v o vi).accepted_values = vi.accepted_values ++ accepted_of [(v, o)] := by
  cases o with
  | none => simp [bucket_probe, accepted_of]
  | some s =>
    by_cases h1 : s = 200 ∨ s = 401 ∨ s = 403
    · rcases h1 with h | h | h <;> subst h <;> simp [bucket_probe, accepted_of]
    · push_neg at h1
      by_cases h2 : s = 400
      · subst h2
        simp [bucket_probe, accepted_of]
      · simp [bucket_probe, accepted_of, h1.1, h1.2.1, h1.2.2, h2]

theorem bucket_probe_rejected (v : String) (o : Option Nat) (vi : ValidationInfo) :
    (bucket_probe v o vi).rejected_values = vi.rejected_values ++ rejected_of [(v, o)] := by
  cases o with
  | none => simp [bucket_probe, rejected_of]
  | some s =>
    by_cases h1 : s = 200 ∨ s = 401 ∨ s = 403
    · rcases h1 with h | h | h <;> subst h <;> simp [bucket_probe, rejected_of]
    · push_neg at h1
      by_cases h2 : s = 400
      · subst h2
        simp [bucket_probe, rejected_of]
      · simp [bucket_probe, rejected_of, h1.1, h1.2.1, h1.2.2, h2]

theorem accepted_of_append (a b : List (String × Option Nat)) :
    accepted_of (a ++ b) = accepted_of a ++ accepted_of b := by
  simp [accepted_of]

theorem rejected_of_append (a b : List (String × Option Nat)) :
    rejected_of (a ++ b) = rejected_of a ++ rejected_of b := by
  simp [rejected_of]

theorem foldl_bucket_accepted (l : List (String × Option Nat)) (vi : ValidationInfo) :
    (l.foldl (fun vi p => bucket_probe p.1 p.2 vi) vi).accepted_values =
      vi.accepted_values ++ accepted_of l := by
  induction l generalizing vi with
  | nil => simp [accepted_of]
  | cons p t ih =>
    have hsplit : accepted_of (p :: t) = accepted_of [p] ++ accepted_of t := by
      have : p :: t = [p] ++ t := rfl
      rw [this, accepted_of_append]
    simp only [List.foldl_cons, ih, bucket_probe_accepted, hsplit, List.append_assoc]

theorem foldl_bucket_rejected (l : List (String × Option Nat)) (vi : ValidationInfo) :
    (l.foldl (fun vi p => bucket_probe p.1 p.2 vi) vi).rejected_values =
      vi.rejected_values ++ rejected_of l := by
  induction l generalizing vi with
  | nil => simp [rejected_of]
  | cons p t ih =>
    have hsplit : rejected_of (p :: t) = rejected_of [p] ++ rejected_of t := by
      have : p :: t = [p] ++ t := rfl
      rw [this, rejected_of_append]
    simp only [List.foldl_cons, ih, bucket_probe_rejected, hsplit, List.append_assoc]

theorem bucket_error_accepted (v : String) (o : Option Nat) (pat : Option String)
    (vi : ValidationInfo) :
    (bucket_error v o pat vi).accepted_values = vi.accepted_values := by
  cases o with
  | none => rfl
  | some s =>
    by_cases h : s = 400
    · subst h
      simp [bucket_error]
    · simp [bucket_error, h]

theorem bucket_error_rejected (v : String) (o : Option Nat) (pat : Option String)
    (vi : ValidationInfo) :
    (bucket_error v o pat vi).rejected_values =
      vi.rejected_values ++ (if o = some 400 then [v] else []) := by
  cases o with
  | none => simp [bucket_error]
  | some s =>
    by_cases h : s = 400
    · subst h
      simp [bucket_error]
    · simp [bucket_error, h]

theorem apv_accepted (ps : ParamSpec) (od : Option Nat) (ots : List (Option Nat))
    (oe : Option Nat) (pat : Option String) :
    (analyze_parameter_validation ps od ots oe pat).accepted_values =
      accepted_of ((ps.default, od) :: ps.test_values.zip ots) := by
  have hsplit : accepted_of ((ps.default, od) :: ps.test_values.zip ots) =
      accepted_of [(ps.default, od)] ++ accepted_of (ps.test_values.zip ots) := by
    have : (ps.default, od) :: ps.test_values.zip ots =
        [(ps.default, od)] ++ ps.test_values.zip ots := rfl
    rw [this, accepted_of_append]
  simp only [analyze_parameter_validation, bucket_error_accepted, foldl_bucket_accepted,
    bucket_probe_accepted, hsplit]
  rfl

theorem apv_rejected (ps : ParamSpec) (od : Option Nat) (ots : List (Option Nat))
    (oe : Option Nat) (pat : Option String) :
    (analyze_parameter_validation ps od ots oe pat).rejected_values =
      rejected_of ((ps.default, od) :: ps.test_values.zip ots) ++
        (if oe = some 400 then [ps.error_value] else []) := by
  have hsplit : rejected_of ((ps.default, od) :: ps.test_values.zip ots) =
      rejected_of [(ps.default, od)] ++ rejected_of (ps.test_values.zip ots) := by
    have : (ps.default, od) :: ps.test_values.zip ots =
        [(ps.default, od)] ++ ps.test_values.zip ots := rfl
    rw [this, rejected_of_append]
  simp only [analyze_parameter_validation, bucket_error_rejected, foldl_bucket_rejected,
    bucket_probe_rejected, hsplit]
  simp

theorem apv_required (ps : ParamSpec) (od : Option Nat) (ots : List (Option Nat))
    (oe : Option Nat) (pat : Option String) :
    (analyze_parameter_validation ps od ots oe pat).required =
      required_flag (analyze_parameter_validation ps od ots oe pat).accepted_values
        (analyze_parameter_validation ps od ots oe pat).rejected_values := rfl

theorem required_flag_iff (acc rej : List String) :
    required_flag acc rej = true ↔ (rej ≠ [] ∧ acc = []) := by
  unfold required_flag
  split_ifs with h1 h2 <;> simp_all

theorem required_flag_of_accepted_ne_nil (acc rej : List String) (h : acc ≠ []) :
    required_flag acc rej = false := by
  unfold required_flag
  split_ifs with h1 h2
  · rfl
  · exact absurd h2.2 h
  · rfl

theorem perm_eq_nil_iff {α : Type} {l l' : List α} (h : List.Perm l l') :
    l = [] ↔ l' = [] := by
  rw [← List.length_eq_zero, ← List.length_eq_zero, h.length_eq]

theorem required_flag_perm (acc acc' rej rej' : List String)
    (ha : List.Perm acc acc') (hr : List.Perm rej rej') :
    required_flag acc rej = required_flag acc' rej' := by
  unfold required_flag
  have e1 := perm_eq_nil_iff ha
  have e2 := perm_eq_nil_iff hr
  simp only [ne_eq, e1, e2]

theorem perm_all_eq {α : Type} {l l' : List α} (h : List.Perm l l') (p : α → Bool) :
    l.all p = l'.all p := by
  by_cases hb : l.all p = true
  · rw [hb]
    symm
    rw [List.all_eq_true] at hb ⊢
    exact fun x hx => hb x (h.mem_iff.mpr hx)
  · rw [Bool.not_eq_true] at hb
    rw [hb]
    symm
    rw [Bool.eq_false_iff]
    intro hc
    rw [List.all_eq_true] at hc
    have : l.all p = true := List.all_eq_true.mpr fun x hx => hc x (h.mem_iff.mp hx)
    rw [this] at hb
    simp at hb

theorem perm_isEmpty_eq {α : Type} {l l' : List α} (h : List.Perm l l') :
    l.isEmpty = l'.isEmpty := by
  cases l with
  | nil =>
    have : l' = [] := (perm_eq_nil_iff h).mp rfl
    rw [this]
  | cons a t =>
    have : l' ≠ [] := fun hc => by
      have := (perm_eq_nil_iff h).mpr hc
      exact List.cons_ne_nil a t this
    cases l' with
    | nil => exact absurd rfl this
    | cons b u => rfl

theorem filterMap_sublist_of_eq {α β : Type} (l : List α) (f : α → Option β) (g : α → β)
    (h : ∀ p v, f p = some v → v = g p) : List.Sublist (l.filterMap f) (l.map g) := by
  induction l with
  | nil => simp
  | cons p t ih =>
    rw [List.map_cons]
    cases hfp : f p with
    | none =>
      rw [List.filterMap_cons_none hfp]
      exact ih.cons (g p)
    | some v =>
      rw [List.filterMap_cons_some hfp]
      rw [h p v hfp]
      exact ih.cons₂ (g p)

/-! ## Claim C1 — bucketing of parameter probes -/

/-- C1 counterexample: the designated invalid value (`"e"`) probed with
status 200 is NOT placed into `accepted_values` — with no default/test
probes succeeding, the accepted bucket stays empty — refuting the claim
that a 200 status puts any probed value, the invalid one included, into
`accepted_values`. -/
theorem C1_invalid_probe_counterexample :
    (analyze_parameter_validation ⟨"d", [], "e"⟩ none [] (some 200) none).accepted_values = []
    ∧ "e" ∉ (analyze_parameter_validation ⟨"d", [], "e"⟩ none [] (some 200) none).accepted_values := by
  decide

/-- C1 (amended): for the default-value and test-value probes, a status in
{200,401,403} appends the probed value to `accepted_values` and a status of
exactly 400 appends it to `rejected_values`, in probe order, with any other
status (or a raised request) leaving both buckets unchanged and never
aborting the remaining probes; the invalid-value probe contributes only to
`rejected_values`, and only on status 400 — a status in {200,401,403} on
the invalid probe leaves the value in neither bucket. -/
theorem C1_bucket_characterization (ps : ParamSpec) (od : Option Nat)
    (ots : List (Option Nat)) (oe : Option Nat) (pat : Option String) :
    (analyze_parameter_validation ps od ots oe pat).accepted_values =
      accepted_of ((ps.default, od) :: ps.test_values.zip ots)
    ∧ (analyze_parameter_validation ps od ots oe pat).rejected_values =
      rejected_of ((ps.default, od) :: ps.test_values.zip ots) ++
        (if oe = some 400 then [ps.error_value] else []) :=
  ⟨apv_accepted ps od ots oe pat, apv_rejected ps od ots oe pat⟩

/-! ## Claim C2 — duplicate freedom of discovery -/

/-- C2 counterexample: in explicit-list mode, a caller list naming the same
endpoint twice, both probes answering 200, yields a discovery result with a
duplicated path string — refuting duplicate freedom "in both discovery
modes". -/
theorem C2_duplicates_counterexample :
    discover_endpoints_custom [("/users", some 200), ("/users", some 200)] =
      ["/users", "/users"]
    ∧ ¬ (discover_endpoints_custom [("/users", some 200), ("/users", some 200)]).Nodup := by
  decide

/-- C2 (amended): catalog-mode discovery never contains duplicate path
strings (for every probe outcome and every spec-document/documentation
extraction result); explicit-list mode preserves caller order without
deduplicating, so its result is duplicate-free provided the caller's list
is duplicate-free after normalization. -/
theorem C2_discovery_nodup (pattern_probes : List (String × Option Nat))
    (openapi_endpoints doc_endpoints : List String)
    (custom_probes : List (String × Option Nat)) :
    (discover_endpoints_catalog pattern_probes openapi_endpoints doc_endpoints).Nodup
    ∧ ((custom_probes.map fun p => normalize_endpoint p.1).Nodup →
       (discover_endpoints_custom custom_probes).Nodup) := by
  constructor
  · exact List.nodup_dedup _
  · intro h
    have hs : List.Sublist (discover_endpoints_custom custom_probes)
        (custom_probes.map fun p => normalize_endpoint p.1) := by
      apply filterMap_sublist_of_eq
      intro p v hv
      cases hop : p.2 with
      | none =>
        rw [hop] at hv
        simp at hv
      | some s =>
        rw [hop] at hv
        by_cases hval : is_valid_endpoint s = true
        · simp [hval] at hv
          exact hv.symm
        · simp [hval] at hv
    exact List.Nodup.sublist hs h

/-- C2 witness: both modes on concrete duplicate-free inputs. -/
theorem C2_discovery_nodup_witness :
    (discover_endpoints_catalog [("/users", some 200)] ["/posts"] []).Nodup
    ∧ (discover_endpoints_custom [("/a", some 200)]).Nodup := by
  have h := C2_discovery_nodup [("/users", some 200)] ["/posts"] [] [("/a", some 200)]
  exact ⟨h.1, h.2 (by decide)⟩

/-! ## Claim C4 — requiredness -/

/-- C4: the inferred `required` flag is true iff `rejected_values` is
non-empty and `accepted_values` is empty (hence false whenever the accepted
bucket is non-empty, in mixed outcomes, and when both buckets are empty),
and the flag depends only on the buckets up to reordering of their
elements. -/
theorem C4_requiredness (ps : ParamSpec) (od : Option Nat) (ots : List (Option Nat))
    (oe : Option Nat) (pat : Option String) (acc' rej' : List String) :
    ((analyze_parameter_validation ps od ots oe pat).required = true ↔
      ((analyze_parameter_validation ps od ots oe pat).rejected_values ≠ [] ∧
       (analyze_parameter_validation ps od ots oe pat).accepted_values = []))
    ∧ (List.Perm (analyze_parameter_validation ps od ots oe pat).accepted_values acc' →
       List.Perm (analyze_parameter_validation ps od ots oe pat).rejected_values rej' →
       required_flag acc' rej' = (analyze_parameter_validation ps od ots oe pat).required) := by
  constructor
  · rw [apv_required]
    exact required_flag_iff _ _
  · intro h1 h2
    rw [apv_required]
    exact (required_flag_perm _ _ _ _ h1 h2).symm

/-- C4 witness: a parameter whose sole probe (the default) returns 400 ends
up required, and the flag computed from the reordered buckets agrees. -/
theorem C4_requiredness_witness :
    (analyze_parameter_validation ⟨"1", [], "x"⟩ (some 400) [] none none).required = true
    ∧ required_flag [] ["1"] =
      (analyze_parameter_validation ⟨"1", [], "x"⟩ (some 400) [] none none).required := by
  have h := C4_requiredness ⟨"1", [], "x"⟩ (some 400) [] none none [] ["1"]
  exact ⟨h.1.mpr ⟨by decide, by decide⟩, h.2 (by decide) (by decide)⟩

/-! ## Claim C5 — parameter type inference -/

/-- C5: type inference over the accepted values follows the priority chain
integer → boolean → date → string (with the empty list yielding string),
and is invariant under permutation of the accepted-values list. -/
theorem C5_type_inference (l l' : List String) (hp : List.Perm l l') :
    (infer_parameter_type l =
      if l = [] then "string"
      else if ∀ v ∈ l, isdigit_str v = true then "integer"
      else if ∀ v ∈ l, lower_str v = "true" ∨ lower_str v = "false" then "boolean"
      else if ∀ v ∈ l, date_full v = true then "date"
      else "string")
    ∧ infer_parameter_type l = infer_parameter_type l' := by
  constructor
  · unfold infer_parameter_type
    simp only [List.isEmpty_iff, List.all_eq_true, Bool.or_eq_true, decide_eq_true_eq]
  · unfold infer_parameter_type
    rw [perm_isEmpty_eq hp, perm_all_eq hp isdigit_str,
      perm_all_eq hp (fun v => lower_str v = "true" || lower_str v = "false"),
      perm_all_eq hp date_full]

/-- C5 witness: `["2", "1"]` is classified integer, equal to the
classification of its permutation `["1", "2"]`. -/
theorem C5_type_inference_witness :
    infer_parameter_type ["2", "1"] = "integer"
    ∧ infer_parameter_type ["2", "1"] = infer_parameter_type ["1", "2"] := by
  have h := C5_type_inference ["2", "1"] ["1", "2"] (List.Perm.swap "1" "2" [])
  exact ⟨h.1.trans (by decide), h.2⟩

/-! ## Claim C7 — discovery rate -/

/-- C7 counterexample: an explicit-list run that confirms one endpoint gets
a summary discovery-rate of `1/87 * 100` — defined, non-zero, and computed
against the 87-entry pattern catalog, refuting "undefined or zero, not
computed against the pattern catalog" for explicit-list mode. -/
theorem C7_discovery_rate_counterexample :
    summary_discovery_rate (discover_endpoints_custom [("/users", some 200)]) =
      some ((1 : ℚ) / 87 * 100)
    ∧ ((1 : ℚ) / 87 * 100) ≠ 0
    ∧ summary_discovery_rate (discover_endpoints_custom [("/users", some 200)]) ≠ none := by
  have h1 : discover_endpoints_custom [("/users", some 200)] = ["/users"] := by decide
  have h87 : endpoint_patterns.length = 87 := rfl
  refine ⟨?_, by norm_num, ?_⟩
  · rw [h1]
    unfold summary_discovery_rate
    rw [h87]
    norm_num
  · rw [h1]
    unfold summary_discovery_rate
    rw [h87]
    norm_num
    exact Option.noConfusion

/-- C7 (amended): the summary's discovery-rate always equals the number of
discovered endpoints divided by the 87 cataloged patterns (times 100), in
both discovery modes — the summary computation receives only the discovered
list and always divides by the fixed catalog's length, which is non-empty,
so the zero fallback is unreachable; the CLI merely suppresses printing the
rate in explicit-list mode. -/
theorem C7_discovery_rate (eps : List String) :
    endpoint_patterns.length = 87
    ∧ summary_discovery_rate eps = some ((eps.length : ℚ) / 87 * 100)
    ∧ (summary_discovery_rate eps).isSome = true := by
  have h87 : endpoint_patterns.length = 87 := rfl
  refine ⟨h87, ?_, ?_⟩
  · unfold summary_discovery_rate
    rw [h87]
    norm_num
  · unfold summary_discovery_rate
    rw [h87]
    norm_num

/-! ## Claim C9 — emitted query parameters are never required -/

/-- C9: the profiler sets the `accepted` flag exactly when `accepted_values`
is non-empty, and whenever the emitter's inclusion test for a query
parameter passes on a profiler result, that parameter's `required` field is
false. -/
theorem C9_emitted_not_required (ps : ParamSpec) (od : Option Nat) (ots : List (Option Nat))
    (oe : Option Nat) (pat : Option String) :
    ((analyze_parameter_comprehensive ps od ots oe pat).1.accepted =
      !(analyze_parameter_comprehensive ps od ots oe pat).2.accepted_values.isEmpty)
    ∧ (emits_parameter (analyze_parameter_comprehensive ps od ots oe pat).1
        (analyze_parameter_comprehensive ps od ots oe pat).2 = true →
       (analyze_parameter_comprehensive ps od ots oe pat).1.required = false) := by
  constructor
  · rfl
  · intro h
    have hacc : (analyze_parameter_validation ps od ots oe pat).accepted_values ≠ [] := by
      simp only [emits_parameter, analyze_parameter_comprehensive, Bool.or_eq_true,
        Bool.not_eq_true', List.isEmpty_eq_false_iff_exists_mem] at h
      rcases h with h | h
      · rcases h with ⟨x, hx⟩
        exact List.ne_nil_of_mem hx
      · rcases h with ⟨x, hx⟩
        exact List.ne_nil_of_mem hx
    show (analyze_parameter_validation ps od ots oe pat).required = false
    rw [apv_required]
    exact required_flag_of_accepted_ne_nil _ _ hacc

/-- C9 witness: a parameter accepted on its default probe is emitted and
not required. -/
theorem C9_emitted_not_required_witness :
    emits_parameter (analyze_parameter_comprehensive ⟨"1", [], "x"⟩ (some 200) [] none none).1
      (analyze_parameter_comprehensive ⟨"1", [], "x"⟩ (some 200) [] none none).2 = true
    ∧ (analyze_parameter_comprehensive ⟨"1", [], "x"⟩ (some 200) [] none none).1.required = false := by
  refine ⟨by decide, ?_⟩
  exact (C9_emitted_not_required ⟨"1", [], "x"⟩ (some 200) [] none none).2 (by decide)

/-! ## Claim C6 — CRUD classification -/

/-- C6 counterexample: `"/auth/"` contains `auth` yet is classified
all-False, not create-only — the trailing-segment regex fails on a path
ending in `/`, and that early return precedes the substring overrides. -/
theorem C6_crud_counterexample :
    has_auth_login "/auth/" = true
    ∧ identify_crud_operations "/auth/" = ⟨false, false, false, false⟩
    ∧ identify_crud_operations "/auth/" ≠ ⟨true, false, false, false⟩ := by
  decide

/-- C6 (amended): CRUD classification is a function of the path string
only; when the trailing-segment pattern finds no match (no `/`, or a
trailing `/`) the classification is all-False regardless of substrings;
otherwise a path containing `auth`/`login` is create-only, else one
containing `search`/`find` is read-only, else the structural rule applies —
no trailing second segment gives {create, read}, a trailing second segment
gives {read, update, delete}; in particular `/users` → {create, read},
`/users/42` → {read, update, delete}, `/auth/login` → create-only. -/
theorem C6_crud_characterization (e : String) (r : String) (b : Bool) :
    (regex_last_segments e = none →
      identify_crud_operations e = ⟨false, false, false, false⟩)
    ∧ (regex_last_segments e = some (r, b) →
        (has_auth_login e = true →
          identify_crud_operations e = ⟨true, false, false, false⟩)
        ∧ (has_auth_login e = false → has_search_find e = true →
          identify_crud_operations e = ⟨false, true, false, false⟩)
        ∧ (has_auth_login e = false → has_search_find e = false →
          identify_crud_operations e = ⟨!b, true, b, b⟩))
    ∧ identify_crud_operations "/users" = ⟨true, true, false, false⟩
    ∧ identify_crud_operations "/users/42" = ⟨false, true, true, true⟩
    ∧ identify_crud_operations "/auth/login" = ⟨true, false, false, false⟩ := by
  refine ⟨?_, ?_, by decide, by decide, by decide⟩
  · intro h
    simp [identify_crud_operations, h]
  · intro h
    refine ⟨?_, ?_, ?_⟩
    · intro ha
      simp [identify_crud_operations, h, ha]
    · intro ha hs
      simp [identify_crud_operations, h, ha, hs]
    · intro ha hs
      simp [identify_crud_operations, h, ha, hs]

/-- C6 witness: the characterization applied to `/users/42`. -/
theorem C6_crud_characterization_witness :
    identify_crud_operations "/users/42" = ⟨false, true, true, true⟩ := by
  have h := C6_crud_characterization "/users/42" "users" true
  exact (h.2.1 (by decide)).2.2 (by decide) (by decide)

/-! ## Claim C3 — schema inference is not recursive -/

theorem lookup_infer_properties : ∀ (f : JsonFields) (k : String),
    lookup_field (infer_properties f) k =
      (lookup_field f k).map fun v =>
        .jobj (.cons "type" (.jstr (infer_type_comprehensive v))
          (.cons "example" v .nil))
  | .nil, k => by simp [infer_properties, lookup_field]
  | .cons k' v t, k => by
    simp only [infer_properties, lookup_field]
    by_cases h : k' = k
    · simp [h]
    · simp [h, lookup_infer_properties t k]

/-- C3 counterexample: on the nested body `{"a": {"b": 1}}`, the source's
inference differs from the claim's recursive mapping — the entry the source
produces for field `a` carries no `properties` key at all (it is the flat
`{'type','example'}` pair), while the recursive mapping nests a full schema
there. -/
theorem C3_nested_counterexample :
    analyze_response_schema_comprehensive c3_input ≠ claim_schema_map c3_input
    ∧ get_key ((get_key ((get_key (analyze_response_schema_comprehensive c3_input)
        "properties").getD .jnull) "a").getD .jnull) "properties" = none
    ∧ get_key ((get_key ((get_key (claim_schema_map c3_input)
        "properties").getD .jnull) "a").getD .jnull) "properties" ≠ none := by
  decide

/-- C3 (amended): schema inference is depth-one, not recursive — a 200 GET
JSON object body maps to `{type: object, properties: field →
{'type': shallow type tag, 'example': raw value}, required: [], example:
body}`; a non-empty array whose first element is an object maps to
`{type: array, items: object schema of the first element, count: length}`;
a non-empty array whose first element is not an object degrades to
`{type: unknown}` (the inference raises and is caught); an empty array maps
to `{type: "list"}` (the Python type name, not an array schema); and a
scalar maps to its Python type name (`"str"`, `"int"`, ...), not an OpenAPI
primitive kind. -/
theorem C3_schema_inference (f : JsonFields) (k : String) (x : JsonValue)
    (xs : JsonList) (s : String) (n : Int) :
    (get_key (analyze_response_schema_comprehensive (.jobj f)) "type" =
      some (.jstr "object"))
    ∧ (get_key ((get_key (analyze_response_schema_comprehensive (.jobj f))
        "properties").getD .jnull) k =
        (lookup_field f k).map fun v =>
          .jobj (.cons "type" (.jstr (infer_type_comprehensive v))
            (.cons "example" v .nil)))
    ∧ (analyze_response_schema_comprehensive (.jarr .nil) =
        .jobj (.cons "type" (.jstr "list") .nil))
    ∧ (analyze_response_schema_comprehensive (.jarr (.cons (.jobj f) xs)) =
        .jobj (.cons "type" (.jstr "array")
          (.cons "items" (infer_object_schema_comprehensive f)
            (.cons "count" (.jint ((xs.length : Nat) + 1)) .nil))))
    ∧ (is_json_object x = false →
        analyze_response_schema_comprehensive (.jarr (.cons x xs)) =
          .jobj (.cons "type" (.jstr "unknown") .nil))
    ∧ (analyze_response_schema_comprehensive (.jstr s) =
        .jobj (.cons "type" (.jstr "str") .nil))
    ∧ (analyze_response_schema_comprehensive (.jint n) =
        .jobj (.cons "type" (.jstr "int") .nil)) := by
  refine ⟨rfl, ?_, rfl, rfl, ?_, rfl, rfl⟩
  · simp only [analyze_response_schema_comprehensive,
      infer_object_schema_comprehensive, get_key, lookup_field]
    simp [lookup_infer_properties f k]
  · intro hx
    cases x <;> simp_all [is_json_object, analyze_response_schema_comprehensive,
      python_type_name]

/-- C3 witness: a non-empty array headed by a non-object degrades to
unknown. -/
theorem C3_schema_inference_witness :
    analyze_response_schema_comprehensive (.jarr (.cons (.jint 5) .nil)) =
      .jobj (.cons "type" (.jstr "unknown") .nil) := by
  exact (C3_schema_inference .nil "k" (.jint 5) .nil "" 0).2.2.2.2.1 (by decide)

/-! ## Claim C8 — unparseable 200 bodies -/

/-- C8 counterexample: an unparseable body (`_safe_json` returns the raw
text `"hello"`) yields `{'type': 'str'}`, not `{type: unknown}`. -/
theorem C8_nonjson_counterexample :
    analyze_response_schema_comprehensive (safe_json none "hello") =
      .jobj (.cons "type" (.jstr "str") .nil)
    ∧ analyze_response_schema_comprehensive (safe_json none "hello") ≠
      .jobj (.cons "type" (.jstr "unknown") .nil) := by
  decide

/-- C8 (amended): for every 200 GET response whose body is not parseable as
JSON, `_safe_json` returns the raw text and schema inference returns
exactly `{'type': 'str'}` (the Python type name of the text) without
raising; `{type: unknown}` arises only when inference itself raises, which
an unparseable body never causes. -/
theorem C8_nonjson_degrades (raw : String) :
    analyze_response_schema_comprehensive (safe_json none raw) =
      .jobj (.cons "type" (.jstr "str") .nil) := rfl

/-! ## Claim C10 — emitter response-schema conversion -/

theorem crs_nil : create_response_schema (.jobj .nil) = some empty_object_schema := by
  unfold create_response_schema
  simp [py_falsy]

theorem convert_properties_infer : ∀ (f : JsonFields),
    ∃ ps, convert_properties (infer_properties f) = some ps
  | .nil => ⟨.nil, rfl⟩
  | .cons k v t => by
    obtain ⟨ps, hps⟩ := convert_properties_infer t
    have hc : ∃ c, convert_property k
        (.cons "type" (.jstr (infer_type_comprehensive v))
          (.cons "example" v .nil)) = some c := ⟨_, rfl⟩
    obtain ⟨c, hc⟩ := hc
    exact ⟨.cons k c ps, by simp [infer_properties, convert_properties, hc, hps]⟩

theorem crs_on_object_schema (f : JsonFields) :
    ∃ ps, create_response_schema (infer_object_schema_comprehensive f) =
      some (.jobj (.cons "type" (.jstr "object")
        (.cons "properties" (.jobj ps) .nil))) := by
  obtain ⟨ps, hps⟩ := convert_properties_infer f
  refine ⟨ps, ?_⟩
  unfold infer_object_schema_comprehensive
  unfold create_response_schema
  simp [py_falsy, lookup_field, hps]

theorem crs_other_tag (f : JsonFields) (t : String)
    (h1 : lookup_field f "type" = some (.jstr t))
    (h2 : t ≠ "array") (h3 : t ≠ "object") :
    create_response_schema (.jobj f) = some empty_object_schema := by
  cases f with
  | nil => simp [lookup_field] at h1
  | cons k v rest =>
    unfold create_response_schema
    simp [py_falsy, h1, h2, h3]

theorem crs_missing_items (f : JsonFields)
    (h1 : lookup_field f "type" = some (.jstr "array"))
    (h2 : lookup_field f "items" = none) :
    create_response_schema (.jobj f) =
      some (.jobj (.cons "type" (.jstr "array")
        (.cons "items" empty_object_schema .nil))) := by
  cases f with
  | nil => simp [lookup_field] at h1
  | cons k v rest =>
    unfold create_response_schema
    simp [py_falsy, h1, crs_nil]
    split
    · rename_i items hi
      rw [h2] at hi
      exact Option.noConfusion hi
    · rfl

/-- C10: the emitter's response-schema conversion, applied to any schema the
engine's inference can produce, succeeds and yields a top-level `object` or
`array` schema; the degradation cases are as claimed — the empty mapping,
any scalar-typed or unrecognized type tag, and (for the `items` position)
an array schema with missing items all degrade to
`{type: object, properties: {}}` rather than failing or emitting a scalar
schema. -/
theorem C10_emitter_total (f : JsonFields) (t : String) (data : JsonValue) :
    (create_response_schema (.jobj .nil) = some empty_object_schema)
    ∧ (lookup_field f "type" = some (.jstr t) → t ≠ "array" → t ≠ "object" →
        create_response_schema (.jobj f) = some empty_object_schema)
    ∧ (lookup_field f "type" = some (.jstr "array") →
        lookup_field f "items" = none →
        create_response_schema (.jobj f) =
          some (.jobj (.cons "type" (.jstr "array")
            (.cons "items" empty_object_schema .nil))))
    ∧ (∃ out,
        create_response_schema (analyze_response_schema_comprehensive data) = some out
        ∧ (get_key out "type" = some (.jstr "object")
           ∨ get_key out "type" = some (.jstr "array"))) := by
  refine ⟨crs_nil, crs_other_tag f t, crs_missing_items f, ?_⟩
  cases data with
  | jobj f' =>
    obtain ⟨ps, hps⟩ := crs_on_object_schema f'
    exact ⟨_, hps, Or.inl rfl⟩
  | jarr l =>
    cases l with
    | nil =>
      refine ⟨empty_object_schema, ?_, Or.inl rfl⟩
      exact crs_other_tag _ "list" rfl (by decide) (by decide)
    | cons x xs =>
      cases x with
      | jobj f' =>
        obtain ⟨ps, hps⟩ := crs_on_object_schema f'
        refine ⟨.jobj (.cons "type" (.jstr "array")
          (.cons "items" (.jobj (.cons "type" (.jstr "object")
            (.cons "properties" (.jobj ps) .nil))) .nil)), ?_, Or.inr rfl⟩
        show create_response_schema (.jobj (.cons "type" (.jstr "array")
          (.cons "items" (infer_object_schema_comprehensive f')
            (.cons "count" (.jint ((xs.length : Nat) + 1)) .nil)))) = _
        unfold create_response_schema
        simp [py_falsy, lookup_field, hps]
      | jnull =>
        exact ⟨empty_object_schema,
          crs_other_tag _ "unknown" rfl (by decide) (by decide), Or.inl rfl⟩
      | jbool b =>
        exact ⟨empty_object_schema,
          crs_other_tag _ "unknown" rfl (by decide) (by decide), Or.inl rfl⟩
      | jint n =>
        exact ⟨empty_object_schema,
          crs_other_tag _ "unknown" rfl (by decide) (by decide), Or.inl rfl⟩
      | jstr s =>
        exact ⟨empty_object_schema,
          crs_other_tag _ "unknown" rfl (by decide) (by decide), Or.inl rfl⟩
      | jarr l' =>
        exact ⟨empty_object_schema,
          crs_other_tag _ "unknown" rfl (by decide) (by decide), Or.inl rfl⟩
  | jnull =>
    exact ⟨empty_object_schema,
      crs_other_tag _ "NoneType" rfl (by decide) (by decide), Or.inl rfl⟩
  | jbool b =>
    exact ⟨empty_object_schema,
      crs_other_tag _ "bool" rfl (by decide) (by decide), Or.inl rfl⟩
  | jint n =>
    exact ⟨empty_object_schema,
      crs_other_tag _ "int" rfl (by decide) (by decide), Or.inl rfl⟩
  | jstr s =>
    exact ⟨empty_object_schema,
      crs_other_tag _ "str" rfl (by decide) (by decide), Or.inl rfl⟩

/-- C10 witness: a scalar-typed tag degrades to the empty object schema,
and an array schema with missing items keeps `array` with degraded items. -/
theorem C10_emitter_total_witness :
    create_response_schema (.jobj (.cons "type" (.jstr "integer") .nil)) =
      some empty_object_schema
    ∧ create_response_schema (.jobj (.cons "type" (.jstr "array") .nil)) =
      some (.jobj (.cons "type" (.jstr "array")
        (.cons "items" empty_object_schema .nil))) := by
  have h1 := C10_emitter_total (.cons "type" (.jstr "integer") .nil) "integer" .jnull
  have h2 := C10_emitter_total (.cons "type" (.jstr "array") .nil) "array" .jnull
  exact ⟨h1.2.1 rfl (by decide) (by decide), h2.2.2.1 rfl rfl⟩
